import Mathlib

/-!
Shallow embedding of the store façade in `src/ep.cc`
(`EventuallyPersistentStore` and its flusher helpers).

The hash table, `StoredValue` and `VBucket` live in `ep.hh`, which is not
part of the sources; their operations (`unlocked_find`, `unlocked_softDelete`,
`isExpired`, `markClean`, `reDirty`, ...) are modelled from the spec's data
model (§3) and hash-table contract (§4.C) and are marked `Modelled from the
spec:` in their doc comments.  Everything else is translated directly from
`ep.cc`.

Machine integers are modelled as `Nat`/`Int`; relative wall-clock times
(`rel_time_t`) as `Nat`.  The backing store, stats counters and dispatcher
are represented by the observable effects the code produces (queue pushes,
scheduled tasks, backing-store calls), not by their own state.
-/

namespace EP

/-- Partition (vbucket) states, `vbucket_state_t`. -/
inductive VBucketState
  | active
  | replica
  | pending
  | dead
deriving DecidableEq, Repr

/-- The engine error codes (`ENGINE_ERROR_CODE`) produced by the façade. -/
inductive EngineCode
  | success
  | notMyVBucket
  | ewouldblock
  | keyEnoent
  | keyEexists
  | notStored
  | enomem
deriving DecidableEq, Repr

/-- `mutation_type_t` results of `HashTable::set` / `softDelete`. -/
inductive MutationType
  | NOMEM
  | INVALID_CAS
  | IS_LOCKED
  | WAS_DIRTY
  | NOT_FOUND
  | WAS_CLEAN
  | INVALID_VBUCKET
deriving DecidableEq, Repr

/-- `add_type_t` results of `HashTable::add`. -/
inductive AddType
  | ADD_NOMEM
  | ADD_EXISTS
  | ADD_SUCCESS
  | ADD_UNDEL
deriving DecidableEq, Repr

/-- `enum queue_operation` of a dirty-queue entry. -/
inductive QueueOperation
  | opSet
  | opDel
  | opFlush
deriving DecidableEq, Repr

/-- A dirty-queue entry, `QueuedItem`: key, partition id, operation, and the
`dirtied` stamp recorded when the entry was enqueued (`qi.getDirtied()`). -/
structure QueuedItem where
  key : String
  vbid : Nat
  op : QueueOperation
  dirtied : Nat
deriving DecidableEq, Repr

/-- In-memory record for one key, `StoredValue` (spec §3 data model):
`value = none` means non-resident or deleted; `rowId = -1` before the first
persist; `lockedUntil` is the lock expiry stamp (`0` = never locked). -/
structure StoredValue where
  key : String
  value : Option String
  cas : Nat
  flags : Nat
  exptime : Nat
  rowId : Int
  pendingId : Bool
  dirty : Bool
  dirtied : Nat
  deleted : Bool
  lockedUntil : Nat
deriving DecidableEq, Repr

/-- A value snapshot crossing to the backing store or a client (`Item`). -/
structure Item where
  key : String
  flags : Nat
  exptime : Nat
  value : Option String
  cas : Nat
  rowId : Int
  vbid : Nat
deriving DecidableEq, Repr

/-- Store-wide configuration read by the embedded routines:
`doPersistence` (the `EP_NO_PERSISTENCE` toggle), `stats.min_data_age`,
`stats.queue_age_cap` and `engine.getItemExpiryWindow()`. -/
structure Config where
  doPersistence : Bool
  minDataAge : Int
  queueAgeCap : Int
  itemExpiryWindow : Nat
deriving DecidableEq, Repr

/-- Modelled from the spec: `StoredValue::isExpired(t)` (ep.hh is not in the
sources).  Spec §3 invariant 6: expired iff `exptime ≠ 0 ∧ now ≥ exptime`. -/
def StoredValue.isExpired (sv : StoredValue) (t : Nat) : Bool :=
  sv.exptime ≠ 0 && sv.exptime ≤ t

/-- Modelled from the spec: `StoredValue::isLocked(t)` (ep.hh is not in the
sources).  Spec §3: locked while `lockedUntil` is in the future. -/
def StoredValue.isLocked (sv : StoredValue) (t : Nat) : Bool :=
  t < sv.lockedUntil

/-- Modelled from the spec: `StoredValue::markClean(&dirtied)` (ep.hh is not
in the sources).  Clears the dirty flag and reports the stamp of the last
clean→dirty transition, which the flusher uses as the data age base. -/
def markClean (sv : StoredValue) : StoredValue × Nat :=
  ({ sv with dirty := false }, sv.dirtied)

/-- Modelled from the spec: `StoredValue::reDirty(d)` (ep.hh is not in the
sources).  Spec §4.F redirty: re-mark dirty at the original `dirtied` stamp. -/
def reDirty (sv : StoredValue) (d : Nat) : StoredValue :=
  { sv with dirty := true, dirtied := d }

/-- Modelled from the spec: `StoredValue::setPendingId()` (ep.hh is not in
the sources).  Marks a persist in flight that will assign a rowId. -/
def setPendingId (sv : StoredValue) : StoredValue :=
  { sv with pendingId := true }

/-- Modelled from the spec: `StoredValue::clearId()` (ep.hh is not in the
sources).  Spec §4.F: clear the stored value's rowId. -/
def clearId (sv : StoredValue) : StoredValue :=
  { sv with rowId := -1 }

/-- Modelled from the spec: `HashTable::unlocked_find(key, bucket,
wantDeleted)` (ep.hh is not in the sources).  Returns the entry for the key;
a tombstone is returned only when `wantDeleted`.  The entry (or its absence)
is the `entry` argument; key hashing is outside the model. -/
def unlocked_find (wantDeleted : Bool) (entry : Option StoredValue) :
    Option StoredValue :=
  match entry with
  | none => none
  | some sv => if sv.deleted && !wantDeleted then none else some sv

/-- Modelled from the spec: `HashTable::unlocked_softDelete` (ep.hh is not in
the sources).  Spec §4.C: marks `deleted`, frees the value, leaves the entry;
reports `WAS_DIRTY` if the entry was already dirty, else `WAS_CLEAN`.  The
resulting state is dirty (the tombstone awaits flushing); a clean→dirty
transition stamps `dirtied` with the current time. -/
def unlocked_softDelete (sv : StoredValue) (now : Nat) :
    StoredValue × MutationType :=
  ({ sv with deleted := true, value := none, dirty := true,
             dirtied := if sv.dirty then sv.dirtied else now },
   if sv.dirty then MutationType.WAS_DIRTY else MutationType.WAS_CLEAN)

/-- `EventuallyPersistentStore::queueDirty` (ep.cc): builds the `QueuedItem`
and pushes it onto `towrite` when `doPersistence` holds.  The result is the
list of entries pushed (empty or a singleton). -/
def queueDirtyItems (cfg : Config) (key : String) (vbid : Nat)
    (op : QueueOperation) (now : Nat) : List QueuedItem :=
  if cfg.doPersistence then [⟨key, vbid, op, now⟩] else []

/-- Result of `fetchValidValue`: the returned pointer, the table entry
afterwards, and any dirty-queue entries pushed (expiry soft-delete). -/
structure FVVOut where
  res : Option StoredValue
  entry : Option StoredValue
  enq : List QueuedItem
deriving DecidableEq, Repr

/-- `EventuallyPersistentStore::fetchValidValue` (ep.cc): find the entry
(tombstones only when `wantDeleted`); a tombstone is returned ignoring
expiry; an expired live entry is soft-deleted (enqueuing a del entry when
the soft-delete was against a clean value) and reported absent.
`rnow` is `ep_real_time()`, `now` is `ep_current_time()`. -/
def fetchValidValue (cfg : Config) (wantDeleted : Bool) (key : String)
    (vbid : Nat) (entry : Option StoredValue) (rnow now : Nat) : FVVOut :=
  match unlocked_find wantDeleted entry with
  | none => ⟨none, entry, []⟩
  | some sv =>
    if sv.deleted then ⟨some sv, entry, []⟩
    else if sv.isExpired rnow then
      let sd := unlocked_softDelete sv now
      ⟨none, some sd.1,
       if sd.2 = MutationType.WAS_CLEAN then
         queueDirtyItems cfg key vbid QueueOperation.opDel now
       else []⟩
    else ⟨some sv, entry, []⟩

/-- The partition-state gate of `EventuallyPersistentStore::set` (ep.cc):
`some c` means the operation returns `c` before touching the hash table.
`parked` is the result of `vb->addPendingOp(cookie)`. -/
def stateCheckSet (vb : Option VBucketState) (force parked : Bool) :
    Option EngineCode :=
  match vb with
  | none => some EngineCode.notMyVBucket
  | some VBucketState.dead => some EngineCode.notMyVBucket
  | some VBucketState.active => none
  | some VBucketState.replica =>
    if !force then some EngineCode.notMyVBucket else none
  | some VBucketState.pending =>
    if !force && parked then some EngineCode.ewouldblock else none

/-- The partition-state gate of `EventuallyPersistentStore::add` (ep.cc). -/
def stateCheckAdd (vb : Option VBucketState) (parked : Bool) :
    Option EngineCode :=
  match vb with
  | none => some EngineCode.notMyVBucket
  | some VBucketState.dead => some EngineCode.notMyVBucket
  | some VBucketState.replica => some EngineCode.notMyVBucket
  | some VBucketState.active => none
  | some VBucketState.pending =>
    if parked then some EngineCode.ewouldblock else none

/-- The partition-state gate of `EventuallyPersistentStore::del` (ep.cc). -/
def stateCheckDel (vb : Option VBucketState) (parked : Bool) :
    Option EngineCode :=
  match vb with
  | none => some EngineCode.notMyVBucket
  | some VBucketState.dead => some EngineCode.notMyVBucket
  | some VBucketState.active => none
  | some VBucketState.replica => some EngineCode.notMyVBucket
  | some VBucketState.pending =>
    if parked then some EngineCode.ewouldblock else none

/-- The partition-state gate of `EventuallyPersistentStore::get` (ep.cc):
dead/replica/pending are rejected only when `honorStates` holds. -/
def stateCheckGet (vb : Option VBucketState) (honorStates parked : Bool) :
    Option EngineCode :=
  match vb with
  | none => some EngineCode.notMyVBucket
  | some VBucketState.dead =>
    if honorStates then some EngineCode.notMyVBucket else none
  | some VBucketState.active => none
  | some VBucketState.replica =>
    if honorStates then some EngineCode.notMyVBucket else none
  | some VBucketState.pending =>
    if honorStates && parked then some EngineCode.ewouldblock else none

/-- Observable outcome of a façade mutation: the returned code and the
dirty-queue entries pushed onto `towrite`. -/
structure MutOutcome where
  code : EngineCode
  enq : List QueuedItem
deriving DecidableEq, Repr

/-- `EventuallyPersistentStore::set(item, cookie, force)` (ep.cc): after the
state gate, dispatch on the hash-table result `mtype` (`vb->ht.set` is in
ep.hh, so its result is an input here).  `WAS_CLEAN`, and `NOT_FOUND` for a
non-CAS request, enqueue a dirty set entry; `WAS_DIRTY` succeeds without
enqueuing; `INVALID_CAS`/`IS_LOCKED` report "exists"; `NOT_FOUND` for a CAS
request reports "not found". -/
def epSet (cfg : Config) (vb : Option VBucketState) (force parked : Bool)
    (itemKey : String) (itemVbid : Nat) (itemCas : Nat)
    (mtype : MutationType) (now : Nat) : MutOutcome :=
  match stateCheckSet vb force parked with
  | some c => ⟨c, []⟩
  | none =>
    let cas_op := itemCas ≠ 0
    match mtype with
    | MutationType.NOMEM => ⟨EngineCode.enomem, []⟩
    | MutationType.INVALID_CAS => ⟨EngineCode.keyEexists, []⟩
    | MutationType.IS_LOCKED => ⟨EngineCode.keyEexists, []⟩
    | MutationType.WAS_DIRTY => ⟨EngineCode.success, []⟩
    | MutationType.NOT_FOUND =>
      if cas_op then ⟨EngineCode.keyEnoent, []⟩
      else ⟨EngineCode.success,
            queueDirtyItems cfg itemKey itemVbid QueueOperation.opSet now⟩
    | MutationType.WAS_CLEAN =>
      ⟨EngineCode.success,
       queueDirtyItems cfg itemKey itemVbid QueueOperation.opSet now⟩
    | MutationType.INVALID_VBUCKET => ⟨EngineCode.notMyVBucket, []⟩

/-- `EventuallyPersistentStore::add(item, cookie)` (ep.cc): the state gate,
then rejection of CAS-carrying adds, then dispatch on the hash-table add
result (`vb->ht.add` is in ep.hh, so its result is an input here). -/
def epAdd (cfg : Config) (vb : Option VBucketState) (parked : Bool)
    (itemKey : String) (itemVbid : Nat) (itemCas : Nat)
    (atype : AddType) (now : Nat) : MutOutcome :=
  match stateCheckAdd vb parked with
  | some c => ⟨c, []⟩
  | none =>
    if itemCas ≠ 0 then ⟨EngineCode.notStored, []⟩
    else
      match atype with
      | AddType.ADD_NOMEM => ⟨EngineCode.enomem, []⟩
      | AddType.ADD_EXISTS => ⟨EngineCode.notStored, []⟩
      | AddType.ADD_SUCCESS =>
        ⟨EngineCode.success,
         queueDirtyItems cfg itemKey itemVbid QueueOperation.opSet now⟩
      | AddType.ADD_UNDEL =>
        ⟨EngineCode.success,
         queueDirtyItems cfg itemKey itemVbid QueueOperation.opSet now⟩

/-- `HashTable::softDelete(key)` result, modelled from the spec (ep.hh is
not in the sources): `NOT_FOUND` when the key is absent or already a
tombstone; otherwise soft-delete reporting `WAS_CLEAN`/`WAS_DIRTY`. -/
def softDelete (entry : Option StoredValue) (now : Nat) :
    Option StoredValue × MutationType :=
  match entry with
  | none => (none, MutationType.NOT_FOUND)
  | some sv =>
    if sv.deleted then (some sv, MutationType.NOT_FOUND)
    else
      let sd := unlocked_softDelete sv now
      (some sd.1, sd.2)

/-- Outcome of `del`: the code, the dirty entries pushed and the table entry
afterwards. -/
structure DelOutcome where
  code : EngineCode
  enq : List QueuedItem
  entry : Option StoredValue
deriving DecidableEq, Repr

/-- `EventuallyPersistentStore::del(key, vbucket, cookie)` (ep.cc): the state
gate, then `softDelete`; `NOT_FOUND` maps to "not found", and a `WAS_CLEAN`
soft-delete enqueues a dirty del entry. -/
def epDel (cfg : Config) (vb : Option VBucketState) (parked : Bool)
    (key : String) (vbid : Nat) (entry : Option StoredValue) (now : Nat) :
    DelOutcome :=
  match stateCheckDel vb parked with
  | some c => ⟨c, [], entry⟩
  | none =>
    let sd := softDelete entry now
    let rv := if sd.2 = MutationType.NOT_FOUND then EngineCode.keyEnoent
              else EngineCode.success
    if sd.2 = MutationType.WAS_CLEAN then
      ⟨rv, queueDirtyItems cfg key vbid QueueOperation.opDel now, sd.1⟩
    else ⟨rv, [], sd.1⟩

/-- Outcome of `get`: the status, the returned item's cas (with the `-1`
locked sentinel; `none` when no item is returned), whether a background
fetch was scheduled, the dirty entries pushed by expiry, and the table entry
afterwards. -/
structure GetOutcome where
  status : EngineCode
  itemCas : Option Int
  bgQueued : Bool
  enq : List QueuedItem
  entry : Option StoredValue
deriving DecidableEq, Repr

/-- `EventuallyPersistentStore::get(key, vbucket, cookie, queueBG,
honorStates)` (ep.cc): the state gate, then `fetchValidValue` (which applies
the expiration policy), then the residency check; a resident hit returns the
item with a `-1` cas sentinel when locked.  The empty `GetValue` default
status is modelled from the spec ("If not found → NotFound"; ep.hh is not in
the sources). -/
def epGet (cfg : Config) (vb : Option VBucketState)
    (honorStates queueBG parked : Bool) (key : String) (vbid : Nat)
    (entry : Option StoredValue) (rnow now : Nat) : GetOutcome :=
  match stateCheckGet vb honorStates parked with
  | some c => ⟨c, none, false, [], entry⟩
  | none =>
    let fv := fetchValidValue cfg false key vbid entry rnow now
    match fv.res with
    | some v =>
      if v.value = none then
        ⟨EngineCode.ewouldblock, none, queueBG, fv.enq, fv.entry⟩
      else
        ⟨EngineCode.success,
         some (if v.isLocked now then -1 else (v.cas : Int)),
         false, fv.enq, fv.entry⟩
    | none => ⟨EngineCode.keyEnoent, none, false, fv.enq, fv.entry⟩

/-- A call the flusher issues to the backing store (or its local stand-in):
`underlying->set(*val, cb)` (with `val = none` modelling a null snapshot
pointer), `underlying->del(key, rowid, cb)`, or the local invocation of the
deletion callback with the given `affected` value. -/
inductive BackendOp
  | setOp (val : Option Item)
  | delOp (key : String) (rowid : Int)
  | localDelCb (affected : Int)
deriving DecidableEq, Repr

/-- State of the locked phase of `flushOneDelOrSet` when the bucket lock is
released: the table entry, the items pushed onto the reject queue, the final
`isDirty` flag, the snapshot `val`, and the defer hint `ret`. -/
structure LockedPhase where
  entry : Option StoredValue
  rejected : List QueuedItem
  isDirty : Bool
  val : Option Item
  ret : Int
deriving DecidableEq, Repr

/-- The `if (eligible)` block of `flushOneDelOrSet` (ep.cc): snapshot the
value for the write when not deleted, and mark a pending id when the row has
never been persisted (`rowid = -1`). -/
def flushEligible (qi : QueuedItem) (sv : StoredValue) (deleted : Bool)
    (rowid : Int) : LockedPhase :=
  let val := if !deleted then
      some ⟨qi.key, sv.flags, sv.exptime, sv.value, sv.cas, rowid, qi.vbid⟩
    else none
  ⟨some (if rowid = -1 then setPendingId sv else sv), [], true, val, 0⟩

/-- The under-lock portion of `flushOneDelOrSet` (ep.cc) for a found entry
`sv0`: the expiry-window early clean, then the age-based eligibility
triage — `pendingId` defers, `dirtyAge > queueAgeCap` forces acceptance,
`dataAge < minDataAge` rejects with the shortfall as the defer hint. -/
def flushLockedPhase (cfg : Config) (qi : QueuedItem) (sv0 : StoredValue)
    (rnow now : Nat) : LockedPhase :=
  let rowid := sv0.rowId
  let deleted := sv0.deleted
  let queued := qi.dirtied
  if sv0.dirty && sv0.isExpired (rnow + cfg.itemExpiryWindow) then
    ⟨some (markClean sv0).1, [], false, none, 0⟩
  else if sv0.dirty then
    let mc := markClean sv0
    let dirtied := mc.2
    let dataAge : Int := (now : Int) - (dirtied : Int)
    let dirtyAge : Int := (now : Int) - (queued : Int)
    if mc.1.pendingId then
      ⟨some (reDirty mc.1 dirtied), [qi], false, none, 0⟩
    else if dirtyAge > cfg.queueAgeCap then
      flushEligible qi mc.1 deleted rowid
    else if dataAge < cfg.minDataAge then
      ⟨some (reDirty mc.1 dirtied), [qi], false, none,
       cfg.minDataAge - dataAge⟩
    else
      flushEligible qi mc.1 deleted rowid
  else ⟨some sv0, [], false, none, 0⟩

/-- The post-unlock dispatch of `flushOneDelOrSet` (ep.cc): a still-dirty
live item is re-queued into `towrite` when its partition awaits deletion and
otherwise written through `underlying->set`; a tombstone is deleted through
`underlying->del` when it has a persisted row (`rowid > 0`) and otherwise
handled by calling the deletion callback locally with `affected = 0`.
Returns the `towrite` pushes and the backing-store call. -/
def flushFinish (bucketDeletionPending : Bool) (qi : QueuedItem)
    (isDirty deleted : Bool) (val : Option Item) (rowid : Int) :
    List QueuedItem × Option BackendOp :=
  if isDirty && !deleted then
    if bucketDeletionPending then ([qi], none)
    else ([], some (BackendOp.setOp val))
  else if deleted then
    if rowid > 0 then ([], some (BackendOp.delOp qi.key rowid))
    else ([], some (BackendOp.localDelCb 0))
  else ([], none)

/-- Overall outcome of `flushOneDelOrSet`: the returned defer hint, the
table entry afterwards, the reject-queue pushes, the `towrite` pushes
(expiry enqueue and partition-deletion re-queue), and the backing-store
call. -/
structure FlushOutcome where
  ret : Int
  entry : Option StoredValue
  rejected : List QueuedItem
  towritePushed : List QueuedItem
  backendOp : Option BackendOp
deriving DecidableEq, Repr

/-- `EventuallyPersistentStore::flushOneDelOrSet(qi, rejectQueue)` (ep.cc):
look up the entry including tombstones, run the locked phase, then the
post-unlock backing-store dispatch.  `vbPresent` is `getVBucket ≠ null`;
`bucketDeletionPending` is `vbuckets.isBucketDeletion(qi.getVBucketId())`;
`tableEntry` is the hash-table entry for `qi.getKey()`. -/
def flushOneDelOrSet (cfg : Config)
    (vbPresent bucketDeletionPending : Bool) (qi : QueuedItem)
    (tableEntry : Option StoredValue) (rnow now : Nat) : FlushOutcome :=
  if vbPresent then
    let fv := fetchValidValue cfg true qi.key qi.vbid tableEntry rnow now
    match fv.res with
    | none => ⟨0, fv.entry, [], fv.enq, none⟩
    | some sv0 =>
      let lp := flushLockedPhase cfg qi sv0 rnow now
      let fin := flushFinish bucketDeletionPending qi lp.isDirty sv0.deleted
        lp.val sv0.rowId
      ⟨lp.ret, lp.entry, lp.rejected, fv.enq ++ fin.1, fin.2⟩
  else ⟨0, tableEntry, [], [], none⟩

/-- Outcome of the deletion `PersistenceCallback`: whether the entry was
physically removed (`unlocked_del`), whether its rowId was cleared, whether
the item was redirtied onto the reject queue, the table entry afterwards,
and any dirty entries enqueued by the embedded `fetchValidValue`. -/
structure DelCbOutcome where
  removed : Bool
  clearedId : Bool
  rejected : List QueuedItem
  entry : Option StoredValue
  enq : List QueuedItem
deriving DecidableEq, Repr

/-- `PersistenceCallback::callback(int&)` (ep.cc), the deletion callback:
on `value ≥ 0` re-fetch the entry (tombstones included) and physically
remove it when it is (still) a tombstone, otherwise clear its rowId; on
`value < 0` redirty the entry at the original `dirtied` stamp and push the
item back onto the reject queue.  `dirtiedStamp` is the callback's captured
`dirtied`. -/
def delCallback (cfg : Config) (qi : QueuedItem) (value : Int)
    (vbPresent : Bool) (tableEntry : Option StoredValue)
    (dirtiedStamp : Nat) (rnow now : Nat) : DelCbOutcome :=
  if value ≥ 0 then
    if vbPresent then
      let fv := fetchValidValue cfg true qi.key qi.vbid tableEntry rnow now
      match fv.res with
      | some v =>
        if v.deleted then ⟨true, false, [], none, fv.enq⟩
        else ⟨false, true, [], some (clearId v), fv.enq⟩
      | none => ⟨false, false, [], fv.entry, fv.enq⟩
    else ⟨false, false, [], tableEntry, []⟩
  else
    ⟨false, false, [qi],
     (tableEntry.map fun sv => reDirty sv dirtiedStamp), []⟩

/-- Modelled from the spec: an update through `HashTable::set` on an
existing entry (ep.hh is not in the sources).  Spec §3: a mutation stores
the new value, assigns a fresh cas, clears any tombstone and marks the entry
dirty, stamping `dirtied` on a clean→dirty transition. -/
def ht_set_update (sv : StoredValue) (newValue : String) (newCas : Nat)
    (now : Nat) : StoredValue :=
  { sv with value := some newValue, cas := newCas, deleted := false,
            dirty := true, dirtied := if sv.dirty then sv.dirtied else now }

/-- Outcome of `getLocked`: the return value, the status handed to the
callback, the cas of the returned item (if any), the table entry
afterwards, and any dirty entries enqueued by `fetchValidValue`. -/
structure GetLockedOutcome where
  returned : Bool
  cbStatus : EngineCode
  itemCas : Option Nat
  entry : Option StoredValue
  enq : List QueuedItem
deriving DecidableEq, Repr

/-- `EventuallyPersistentStore::getLocked(key, vbucket, cb, currentTime,
lockTimeout)` (ep.cc): only an active partition qualifies
(`getVBucket(vbucket, active)`); a locked entry yields an empty callback; an
unlocked hit is locked until `currentTime + lockTimeout`, a fresh cas
(`newCas`, generated by `Item::setCas()`, which is outside the sources) is
stored, and the item is returned.  The empty `GetValue` status is modelled
from the spec as not-found. -/
def getLocked (cfg : Config) (vb : Option VBucketState) (key : String)
    (vbid : Nat) (entry : Option StoredValue)
    (currentTime lockTimeout : Nat) (rnow : Nat) (newCas : Nat) :
    GetLockedOutcome :=
  if vb ≠ some VBucketState.active then
    ⟨false, EngineCode.notMyVBucket, none, entry, []⟩
  else
    let fv := fetchValidValue cfg false key vbid entry rnow currentTime
    match fv.res with
    | some v =>
      if v.isLocked currentTime then
        ⟨false, EngineCode.keyEnoent, none, fv.entry, fv.enq⟩
      else
        ⟨true, EngineCode.success, some newCas,
         some { v with lockedUntil := currentTime + lockTimeout,
                       cas := newCas },
         fv.enq⟩
    | none => ⟨true, EngineCode.keyEnoent, none, fv.entry, fv.enq⟩

/-- A task handed to one of the two dispatchers: the pending-op notification
(`NotifyVBStateChangeCallback`, non-I/O) and the state-persist task
(`SetVBStateCallback`, I/O) with its delay in seconds. -/
inductive ScheduledTask
  | notifyVBStateChange (vbid : Nat)
  | setVBStateTask (vbid : Nat) (stateKey : String) (delaySecs : Nat)
deriving DecidableEq, Repr

/-- The partition table as an association list `id → state`
(`VBucketMap::getBucket`). -/
def vbLookup (table : List (Nat × VBucketState)) (vbid : Nat) :
    Option VBucketState :=
  (table.find? (fun p => p.1 = vbid)).map Prod.snd

/-- `VBucket::setState` lifted to the table: update the state of `vbid`. -/
def vbSetState (table : List (Nat × VBucketState)) (vbid : Nat)
    (toSt : VBucketState) : List (Nat × VBucketState) :=
  table.map (fun p => if p.1 = vbid then (p.1, toSt) else p)

/-- Modelled from the spec: `VBucket::toString` (ep.hh is not in the
sources); the four state names used as the persisted state tag. -/
def vbStateToString : VBucketState → String
  | VBucketState.active => "active"
  | VBucketState.replica => "replica"
  | VBucketState.pending => "pending"
  | VBucketState.dead => "dead"

/-- Outcome of `setVBucketState`: the partition table afterwards and the
tasks scheduled on the non-I/O and I/O dispatchers. -/
structure SetVBOutcome where
  table : List (Nat × VBucketState)
  nonIOTasks : List ScheduledTask
  ioTasks : List ScheduledTask
deriving DecidableEq, Repr

/-- `EventuallyPersistentStore::setVBucketState(vbid, to)` (ep.cc): when the
partition exists, set its state, schedule the pending-op notification on the
non-I/O dispatcher and the state-persist task (delay 0) on the I/O
dispatcher; when it does not exist, add a fresh partition constructed with
state `toSt`. -/
def setVBucketState (table : List (Nat × VBucketState)) (vbid : Nat)
    (toSt : VBucketState) : SetVBOutcome :=
  match vbLookup table vbid with
  | some _ =>
    ⟨vbSetState table vbid toSt,
     [ScheduledTask.notifyVBStateChange vbid],
     [ScheduledTask.setVBStateTask vbid (vbStateToString toSt) 0]⟩
  | none => ⟨table ++ [(vbid, toSt)], [], []⟩

/-- `EventuallyPersistentStore::completeSetVBState(vbid, key)` (ep.cc): when
`underlying->setVBState` fails, reschedule the persist task with a 5 second
delay; returns the I/O tasks scheduled. -/
def completeSetVBState (persistOk : Bool) (vbid : Nat) (key : String) :
    List ScheduledTask :=
  if persistOk then []
  else [ScheduledTask.setVBStateTask vbid key 5]

/-- An entry that is not expired within a grace window is not expired now. -/
theorem isExpired_window_mono (sv : StoredValue) (rnow w : Nat)
    (h : sv.isExpired (rnow + w) = false) : sv.isExpired rnow = false := by
  by_cases h0 : sv.exptime = 0
  · simp [StoredValue.isExpired, h0]
  · simp [StoredValue.isExpired, h0] at h ⊢
    omega

/-- A tombstone-including fetch of an unexpired entry returns it unchanged
and enqueues nothing. -/
theorem fetchValidValue_found (cfg : Config) (key : String) (vbid : Nat)
    (sv : StoredValue) (rnow now : Nat)
    (hexp : sv.isExpired rnow = false) :
    fetchValidValue cfg true key vbid (some sv) rnow now =
      ⟨some sv, some sv, []⟩ := by
  by_cases hd : sv.deleted <;>
    simp [fetchValidValue, unlocked_find, hd, hexp]

/-- C2: for every `set` call that passes the partition-state check (with
persistence enabled): `WAS_CLEAN`, or `NOT_FOUND` with a zero request CAS,
enqueues exactly one dirty entry and succeeds; `WAS_DIRTY` succeeds without
enqueuing; `INVALID_CAS`/`IS_LOCKED` return "exists"; `NOT_FOUND` with a
nonzero request CAS returns "not found". -/
theorem C2_set_result_mapping (cfg : Config) (vb : Option VBucketState)
    (force parked : Bool) (key : String) (vbid cas now : Nat)
    (mtype : MutationType)
    (hpass : stateCheckSet vb force parked = none)
    (hp : cfg.doPersistence = true) :
    ((mtype = MutationType.WAS_CLEAN ∨
        (mtype = MutationType.NOT_FOUND ∧ cas = 0)) →
      epSet cfg vb force parked key vbid cas mtype now =
        ⟨EngineCode.success, [⟨key, vbid, QueueOperation.opSet, now⟩]⟩) ∧
    (mtype = MutationType.WAS_DIRTY →
      epSet cfg vb force parked key vbid cas mtype now =
        ⟨EngineCode.success, []⟩) ∧
    ((mtype = MutationType.INVALID_CAS ∨ mtype = MutationType.IS_LOCKED) →
      (epSet cfg vb force parked key vbid cas mtype now).code =
        EngineCode.keyEexists) ∧
    ((mtype = MutationType.NOT_FOUND ∧ cas ≠ 0) →
      (epSet cfg vb force parked key vbid cas mtype now).code =
        EngineCode.keyEnoent) := by
  refine ⟨?_, ?_, ?_, ?_⟩
  · rintro (rfl | ⟨rfl, rfl⟩) <;>
      simp [epSet, hpass, queueDirtyItems, hp]
  · rintro rfl
    simp [epSet, hpass]
  · rintro (rfl | rfl) <;> simp [epSet, hpass]
  · rintro ⟨rfl, hc⟩
    simp [epSet, hpass, hc]

/-- Witness for C2 at a concrete input. -/
theorem C2_witness :
    stateCheckSet (some VBucketState.active) false false = none ∧
    (Config.mk true 0 0 0).doPersistence = true ∧
    epSet ⟨true, 0, 0, 0⟩ (some VBucketState.active) false false "a" 0 0
        MutationType.WAS_CLEAN 3 =
      ⟨EngineCode.success, [⟨"a", 0, QueueOperation.opSet, 3⟩]⟩ :=
  ⟨rfl, rfl,
   (C2_set_result_mapping ⟨true, 0, 0, 0⟩ (some VBucketState.active)
     false false "a" 0 0 3 MutationType.WAS_CLEAN rfl rfl).1 (Or.inl rfl)⟩

/-- C9: on a pending partition (without force), when `addPendingOp(cookie)`
returns false, `set`, `add`, `del` and `get` do not return `EWOULDBLOCK`:
each falls through and computes exactly the result it would compute on an
active partition. -/
theorem C9_pending_unparked_falls_through (cfg : Config) (key : String)
    (vbid cas rnow now : Nat) (mtype : MutationType) (atype : AddType)
    (entry : Option StoredValue) (honorStates queueBG : Bool) :
    epSet cfg (some VBucketState.pending) false false key vbid cas mtype now =
      epSet cfg (some VBucketState.active) false false key vbid cas mtype now ∧
    epAdd cfg (some VBucketState.pending) false key vbid cas atype now =
      epAdd cfg (some VBucketState.active) false key vbid cas atype now ∧
    epDel cfg (some VBucketState.pending) false key vbid entry now =
      epDel cfg (some VBucketState.active) false key vbid entry now ∧
    epGet cfg (some VBucketState.pending) honorStates queueBG false key vbid
        entry rnow now =
      epGet cfg (some VBucketState.active) honorStates queueBG false key vbid
        entry rnow now := by
  refine ⟨rfl, rfl, rfl, ?_⟩
  by_cases h : honorStates <;> simp [epGet, stateCheckGet, h]

/-- C10: a successful `getLocked` on a found, unlocked, live entry locks it
until `currentTime + lockTimeout` and installs the freshly generated cas,
but neither marks it dirty nor pushes anything onto the dirty queue. -/
theorem C10_getLocked_frame (cfg : Config) (key : String) (vbid : Nat)
    (sv : StoredValue) (currentTime lockTimeout rnow newCas : Nat)
    (hdel : sv.deleted = false)
    (hexp : sv.isExpired rnow = false)
    (hlock : sv.isLocked currentTime = false) :
    getLocked cfg (some VBucketState.active) key vbid (some sv) currentTime
        lockTimeout rnow newCas =
      ⟨true, EngineCode.success, some newCas,
       some { sv with lockedUntil := currentTime + lockTimeout,
                      cas := newCas }, []⟩ := by
  simp [getLocked, fetchValidValue, unlocked_find, hdel, hexp, hlock]

/-- Witness for C10 at a concrete input. -/
theorem C10_witness :
    (StoredValue.mk "k" (some "v") 7 0 0 (-1) false false 0 false 0).deleted
        = false ∧
    (StoredValue.mk "k" (some "v") 7 0 0 (-1) false false 0 false
        0).isExpired 0 = false ∧
    (StoredValue.mk "k" (some "v") 7 0 0 (-1) false false 0 false
        0).isLocked 10 = false ∧
    getLocked ⟨true, 0, 0, 0⟩ (some VBucketState.active) "k" 0
        (some ⟨"k", some "v", 7, 0, 0, -1, false, false, 0, false, 0⟩) 10 5
        0 42 =
      ⟨true, EngineCode.success, some 42,
       some ⟨"k", some "v", 42, 0, 0, -1, false, false, 0, false, 15⟩, []⟩ :=
  ⟨rfl, by decide, by decide,
   C10_getLocked_frame ⟨true, 0, 0, 0⟩ "k" 0
     ⟨"k", some "v", 7, 0, 0, -1, false, false, 0, false, 0⟩ 10 5 0 42
     rfl (by decide) (by decide)⟩

/-- C7 counterexample: a `get` issued with `honorStates = false` against a
dead partition does not return `NOT_MY_VBUCKET` — it falls through to the
hash table (here: an absent key, so it returns "not found"). -/
theorem C7_counterexample :
    (epGet ⟨true, 0, 0, 0⟩ (some VBucketState.dead) false true false "k" 0
        none 0 0).status = EngineCode.keyEnoent ∧
    (epGet ⟨true, 0, 0, 0⟩ (some VBucketState.dead) false true false "k" 0
        none 0 0).status ≠ EngineCode.notMyVBucket := by
  constructor <;> decide

/-- C7 (amended): on a dead partition, `set` (any force), `add`, `del`,
`getLocked`, and `get` with `honorStates = true` all return
`NOT_MY_VBUCKET`; a `get` with `honorStates = false` is exempt. -/
theorem C7_dead_partition_rejects (cfg : Config) (force parked : Bool)
    (key : String) (vbid cas rnow now currentTime lockTimeout newCas : Nat)
    (mtype : MutationType) (atype : AddType) (entry : Option StoredValue)
    (queueBG : Bool) :
    (epSet cfg (some VBucketState.dead) force parked key vbid cas mtype
        now).code = EngineCode.notMyVBucket ∧
    (epAdd cfg (some VBucketState.dead) parked key vbid cas atype
        now).code = EngineCode.notMyVBucket ∧
    (epDel cfg (some VBucketState.dead) parked key vbid entry
        now).code = EngineCode.notMyVBucket ∧
    (epGet cfg (some VBucketState.dead) true queueBG parked key vbid entry
        rnow now).status = EngineCode.notMyVBucket ∧
    (getLocked cfg (some VBucketState.dead) key vbid entry currentTime
        lockTimeout rnow newCas).cbStatus = EngineCode.notMyVBucket :=
  ⟨rfl, rfl, rfl, rfl, rfl⟩

/-- C6: a `get` (past its state gate, with persistence on) of a found,
non-deleted entry whose `exptime` is nonzero and at or before `rnow`
soft-deletes the entry and returns "not found", regardless of residency; a
del-op dirty entry is enqueued exactly when the entry was clean. -/
theorem C6_get_expired (cfg : Config) (vb : Option VBucketState)
    (honorStates queueBG parked : Bool) (key : String) (vbid : Nat)
    (sv : StoredValue) (rnow now : Nat)
    (hpass : stateCheckGet vb honorStates parked = none)
    (hp : cfg.doPersistence = true)
    (hexp0 : sv.exptime ≠ 0) (hnow : sv.exptime ≤ rnow)
    (hdel : sv.deleted = false) :
    epGet cfg vb honorStates queueBG parked key vbid (some sv) rnow now =
      ⟨EngineCode.keyEnoent, none, false,
       if sv.dirty then [] else [⟨key, vbid, QueueOperation.opDel, now⟩],
       some (unlocked_softDelete sv now).1⟩ := by
  have hx : sv.isExpired rnow = true := by
    simp [StoredValue.isExpired, hexp0, hnow]
  by_cases hd : sv.dirty <;>
    simp [epGet, hpass, fetchValidValue, unlocked_find, hdel, hx,
          unlocked_softDelete, queueDirtyItems, hp, hd]

/-- Witness for C6 at a concrete input (a clean, resident, expired entry). -/
theorem C6_witness :
    stateCheckGet (some VBucketState.active) true false = none ∧
    (Config.mk true 0 0 0).doPersistence = true ∧
    (StoredValue.mk "k" (some "v") 7 0 5 3 false false 2 false 0).exptime
        ≠ 0 ∧
    (StoredValue.mk "k" (some "v") 7 0 5 3 false false 2 false 0).exptime
        ≤ 10 ∧
    (StoredValue.mk "k" (some "v") 7 0 5 3 false false 2 false 0).deleted
        = false ∧
    epGet ⟨true, 0, 0, 0⟩ (some VBucketState.active) true true false "k" 0
        (some ⟨"k", some "v", 7, 0, 5, 3, false, false, 2, false, 0⟩) 10 11 =
      ⟨EngineCode.keyEnoent, none, false,
       [⟨"k", 0, QueueOperation.opDel, 11⟩],
       some ⟨"k", none, 7, 0, 5, 3, false, true, 11, true, 0⟩⟩ := by
  have h := C6_get_expired ⟨true, 0, 0, 0⟩ (some VBucketState.active) true
    true false "k" 0 ⟨"k", some "v", 7, 0, 5, 3, false, false, 2, false, 0⟩
    10 11 rfl rfl (by decide) (by decide) rfl
  exact ⟨rfl, rfl, by decide, by decide, rfl, h.trans (by decide)⟩

/-- C4: a set item accepted by the flusher whose partition is pending
deletion is re-queued into `towrite`, and the backing store's `set` is not
invoked (no backing-store call is made at all). -/
theorem C4_flush_requeue_on_partition_delete (cfg : Config)
    (qi : QueuedItem) (sv : StoredValue) (rnow now : Nat)
    (hdel : sv.deleted = false)
    (hd : sv.dirty = true)
    (hexp : sv.isExpired (rnow + cfg.itemExpiryWindow) = false)
    (hpid : sv.pendingId = false)
    (hacc : (now : Int) - qi.dirtied > cfg.queueAgeCap ∨
            ¬ ((now : Int) - sv.dirtied < cfg.minDataAge)) :
    flushOneDelOrSet cfg true true qi (some sv) rnow now =
      ⟨0, some (if sv.rowId = -1 then setPendingId { sv with dirty := false }
                else { sv with dirty := false }),
       [], [qi], none⟩ := by
  have hexp' := isExpired_window_mono sv rnow cfg.itemExpiryWindow hexp
  have hfv := fetchValidValue_found cfg qi.key qi.vbid sv rnow now hexp'
  rcases hacc with h | h
  · simp [flushOneDelOrSet, hfv, flushLockedPhase, markClean, hd, hexp,
          hpid, h, flushEligible, hdel, flushFinish]
  · by_cases h2 : (now : Int) - qi.dirtied > cfg.queueAgeCap <;>
      simp [flushOneDelOrSet, hfv, flushLockedPhase, markClean, hd, hexp,
            hpid, h2, h, flushEligible, hdel, flushFinish]

/-- Witness for C4 at a concrete input. -/
theorem C4_witness :
    (StoredValue.mk "k" (some "v") 7 0 0 3 false true 2 false 0).deleted
        = false ∧
    (StoredValue.mk "k" (some "v") 7 0 0 3 false true 2 false 0).dirty
        = true ∧
    (StoredValue.mk "k" (some "v") 7 0 0 3 false true 2 false 0).isExpired
        (0 + (Config.mk true 0 0 0).itemExpiryWindow) = false ∧
    (StoredValue.mk "k" (some "v") 7 0 0 3 false true 2 false 0).pendingId
        = false ∧
    ¬ ((5 : Int) -
        (StoredValue.mk "k" (some "v") 7 0 0 3 false true 2 false 0).dirtied
        < (Config.mk true 0 0 0).minDataAge) ∧
    flushOneDelOrSet ⟨true, 0, 0, 0⟩ true true ⟨"k", 0, QueueOperation.opSet, 0⟩
        (some ⟨"k", some "v", 7, 0, 0, 3, false, true, 2, false, 0⟩) 0 5 =
      ⟨0, some ⟨"k", some "v", 7, 0, 0, 3, false, false, 2, false, 0⟩,
       [], [⟨"k", 0, QueueOperation.opSet, 0⟩], none⟩ := by
  have h := C4_flush_requeue_on_partition_delete ⟨true, 0, 0, 0⟩
    ⟨"k", 0, QueueOperation.opSet, 0⟩
    ⟨"k", some "v", 7, 0, 0, 3, false, true, 2, false, 0⟩ 0 5 rfl rfl
    (by decide) rfl (Or.inr (by decide))
  exact ⟨rfl, rfl, by decide, rfl, by decide, h.trans (by decide)⟩

/-- C5: a delete item accepted by the flusher issues `underlying->del(key,
rowid, cb)` when the tombstone's rowId is positive, and otherwise skips the
backing store but invokes the deletion callback locally with
`affected = 0`. -/
theorem C5_flush_delete_dispatch (cfg : Config) (qi : QueuedItem)
    (sv : StoredValue) (bucketDeletionPending : Bool) (rnow now : Nat)
    (hdel : sv.deleted = true)
    (hd : sv.dirty = true)
    (hexp : sv.isExpired (rnow + cfg.itemExpiryWindow) = false)
    (hpid : sv.pendingId = false)
    (hacc : (now : Int) - qi.dirtied > cfg.queueAgeCap ∨
            ¬ ((now : Int) - sv.dirtied < cfg.minDataAge)) :
    flushOneDelOrSet cfg true bucketDeletionPending qi (some sv) rnow now =
      ⟨0, some (if sv.rowId = -1 then setPendingId { sv with dirty := false }
                else { sv with dirty := false }),
       [], [],
       some (if sv.rowId > 0 then BackendOp.delOp qi.key sv.rowId
             else BackendOp.localDelCb 0)⟩ := by
  have hexp' := isExpired_window_mono sv rnow cfg.itemExpiryWindow hexp
  have hfv := fetchValidValue_found cfg qi.key qi.vbid sv rnow now hexp'
  rcases hacc with h | h
  · by_cases h3 : sv.rowId > 0 <;>
      simp [flushOneDelOrSet, hfv, flushLockedPhase, markClean, hd, hexp,
            hpid, h, h3, flushEligible, hdel, flushFinish]
  · by_cases h2 : (now : Int) - qi.dirtied > cfg.queueAgeCap <;>
    by_cases h3 : sv.rowId > 0 <;>
      simp [flushOneDelOrSet, hfv, flushLockedPhase, markClean, hd, hexp,
            hpid, h2, h, h3, flushEligible, hdel, flushFinish]

/-- Witness for C5 at a concrete input (a tombstone with a persisted row). -/
theorem C5_witness :
    (StoredValue.mk "k" none 7 0 0 4 false true 2 true 0).deleted = true ∧
    (StoredValue.mk "k" none 7 0 0 4 false true 2 true 0).dirty = true ∧
    (StoredValue.mk "k" none 7 0 0 4 false true 2 true 0).isExpired
        (0 + (Config.mk true 0 0 0).itemExpiryWindow) = false ∧
    (StoredValue.mk "k" none 7 0 0 4 false true 2 true 0).pendingId
        = false ∧
    ¬ ((5 : Int) -
        (StoredValue.mk "k" none 7 0 0 4 false true 2 true 0).dirtied
        < (Config.mk true 0 0 0).minDataAge) ∧
    flushOneDelOrSet ⟨true, 0, 0, 0⟩ true false ⟨"k", 0, QueueOperation.opDel, 0⟩
        (some ⟨"k", none, 7, 0, 0, 4, false, true, 2, true, 0⟩) 0 5 =
      ⟨0, some ⟨"k", none, 7, 0, 0, 4, false, false, 2, true, 0⟩,
       [], [], some (BackendOp.delOp "k" 4)⟩ := by
  have h := C5_flush_delete_dispatch ⟨true, 0, 0, 0⟩
    ⟨"k", 0, QueueOperation.opDel, 0⟩
    ⟨"k", none, 7, 0, 0, 4, false, true, 2, true, 0⟩ false 0 5 rfl rfl
    (by decide) rfl (Or.inr (by decide))
  exact ⟨rfl, rfl, by decide, rfl, by decide, h.trans (by decide)⟩

/-- C1 counterexample: a dirty tombstone that is too young (data age 2 below
`minDataAge = 10`, dirty age 10 within `queueAgeCap = 3600`) is pushed onto
the reject queue with defer hint 8, yet the item IS written to the backing
store: its delete (`underlying->del`) is still issued, because the
post-unlock delete dispatch is not guarded by the eligibility verdict. -/
theorem C1_counterexample :
    (flushOneDelOrSet ⟨true, 10, 3600, 0⟩ true false
        ⟨"k", 0, QueueOperation.opDel, 0⟩
        (some ⟨"k", none, 7, 0, 0, 5, false, true, 8, true, 0⟩) 0 10).ret
      = 8 ∧
    (flushOneDelOrSet ⟨true, 10, 3600, 0⟩ true false
        ⟨"k", 0, QueueOperation.opDel, 0⟩
        (some ⟨"k", none, 7, 0, 0, 5, false, true, 8, true, 0⟩) 0
        10).rejected = [⟨"k", 0, QueueOperation.opDel, 0⟩] ∧
    (flushOneDelOrSet ⟨true, 10, 3600, 0⟩ true false
        ⟨"k", 0, QueueOperation.opDel, 0⟩
        (some ⟨"k", none, 7, 0, 0, 5, false, true, 8, true, 0⟩) 0
        10).backendOp = some (BackendOp.delOp "k" 5) := by
  refine ⟨?_, ?_, ?_⟩ <;> decide

/-- C1 (amended): for a found, dirty, unexpired-within-window, non-pending
item: if the dirty age exceeds `queueAgeCap` it is accepted (not rejected,
hint 0) even when the data age is below `minDataAge`; otherwise, if the data
age is below `minDataAge`, the item is pushed onto the reject queue, the
stored value is re-dirtied (restored to its pre-flush state) and the routine
returns `minDataAge − dataAge` — and no backing-store call is made for a
live item, though a tombstone still has its delete issued; otherwise the
item is accepted and the routine returns 0. -/
theorem C1_flush_age_triage (cfg : Config) (qi : QueuedItem)
    (sv : StoredValue) (bucketDeletionPending : Bool) (rnow now : Nat)
    (hd : sv.dirty = true)
    (hexp : sv.isExpired (rnow + cfg.itemExpiryWindow) = false)
    (hpid : sv.pendingId = false) :
    ((now : Int) - qi.dirtied > cfg.queueAgeCap →
      (flushOneDelOrSet cfg true bucketDeletionPending qi (some sv) rnow
          now).rejected = [] ∧
      (flushOneDelOrSet cfg true bucketDeletionPending qi (some sv) rnow
          now).ret = 0) ∧
    (¬ ((now : Int) - qi.dirtied > cfg.queueAgeCap) →
     ((now : Int) - sv.dirtied < cfg.minDataAge) →
      (flushOneDelOrSet cfg true bucketDeletionPending qi (some sv) rnow
          now).ret = cfg.minDataAge - ((now : Int) - sv.dirtied) ∧
      (flushOneDelOrSet cfg true bucketDeletionPending qi (some sv) rnow
          now).rejected = [qi] ∧
      (flushOneDelOrSet cfg true bucketDeletionPending qi (some sv) rnow
          now).entry = some sv ∧
      (sv.deleted = false →
        (flushOneDelOrSet cfg true bucketDeletionPending qi (some sv) rnow
            now).backendOp = none) ∧
      (sv.deleted = true →
        (flushOneDelOrSet cfg true bucketDeletionPending qi (some sv) rnow
            now).backendOp =
          some (if sv.rowId > 0 then BackendOp.delOp qi.key sv.rowId
                else BackendOp.localDelCb 0))) ∧
    (¬ ((now : Int) - qi.dirtied > cfg.queueAgeCap) →
     ¬ ((now : Int) - sv.dirtied < cfg.minDataAge) →
      (flushOneDelOrSet cfg true bucketDeletionPending qi (some sv) rnow
          now).rejected = [] ∧
      (flushOneDelOrSet cfg true bucketDeletionPending qi (some sv) rnow
          now).ret = 0) := by
  have hexp' := isExpired_window_mono sv rnow cfg.itemExpiryWindow hexp
  have hfv := fetchValidValue_found cfg qi.key qi.vbid sv rnow now hexp'
  obtain ⟨k, val, cas, fl, ex, rid, pid, dty, dtd, del, lu⟩ := sv
  replace hd : dty = true := hd
  replace hpid : pid = false := hpid
  subst hd
  subst hpid
  cases del
  case false =>
    refine ⟨fun h => ?_, fun h1 h2 => ?_, fun h1 h2 => ?_⟩
    · simp [flushOneDelOrSet, hfv, flushLockedPhase, markClean, hexp, h,
            flushEligible, flushFinish]
    · simp [flushOneDelOrSet, hfv, flushLockedPhase, markClean, hexp, h1,
            h2, flushFinish, reDirty]
    · simp [flushOneDelOrSet, hfv, flushLockedPhase, markClean, hexp, h1,
            h2, flushEligible, flushFinish]
  case true =>
    refine ⟨fun h => ?_, fun h1 h2 => ?_, fun h1 h2 => ?_⟩
    · simp [flushOneDelOrSet, hfv, flushLockedPhase, markClean, hexp, h,
            flushEligible, flushFinish]
    · by_cases h3 : rid > 0 <;>
        simp [flushOneDelOrSet, hfv, flushLockedPhase, markClean, hexp,
              h1, h2, h3, flushFinish, reDirty]
    · simp [flushOneDelOrSet, hfv, flushLockedPhase, markClean, hexp, h1,
            h2, flushEligible, flushFinish]

/-- Witness for C1 at a concrete input (too-young live item: rejected with
hint 8 and no backing-store call). -/
theorem C1_witness :
    (StoredValue.mk "k" (some "v") 7 0 0 5 false true 8 false 0).dirty
        = true ∧
    (StoredValue.mk "k" (some "v") 7 0 0 5 false true 8 false 0).isExpired
        (0 + (Config.mk true 10 3600 0).itemExpiryWindow) = false ∧
    (StoredValue.mk "k" (some "v") 7 0 0 5 false true 8 false 0).pendingId
        = false ∧
    ¬ ((10 : Int) - (QueuedItem.mk "k" 0 QueueOperation.opSet 0).dirtied
        > (Config.mk true 10 3600 0).queueAgeCap) ∧
    ((10 : Int) -
        (StoredValue.mk "k" (some "v") 7 0 0 5 false true 8 false 0).dirtied
        < (Config.mk true 10 3600 0).minDataAge) ∧
    (flushOneDelOrSet ⟨true, 10, 3600, 0⟩ true false
        ⟨"k", 0, QueueOperation.opSet, 0⟩
        (some ⟨"k", some "v", 7, 0, 0, 5, false, true, 8, false, 0⟩) 0
        10).ret = 8 ∧
    (flushOneDelOrSet ⟨true, 10, 3600, 0⟩ true false
        ⟨"k", 0, QueueOperation.opSet, 0⟩
        (some ⟨"k", some "v", 7, 0, 0, 5, false, true, 8, false, 0⟩) 0
        10).rejected = [⟨"k", 0, QueueOperation.opSet, 0⟩] ∧
    (flushOneDelOrSet ⟨true, 10, 3600, 0⟩ true false
        ⟨"k", 0, QueueOperation.opSet, 0⟩
        (some ⟨"k", some "v", 7, 0, 0, 5, false, true, 8, false, 0⟩) 0
        10).backendOp = none := by
  have h := (C1_flush_age_triage ⟨true, 10, 3600, 0⟩
    ⟨"k", 0, QueueOperation.opSet, 0⟩
    ⟨"k", some "v", 7, 0, 0, 5, false, true, 8, false, 0⟩ false 0 10 rfl
    (by decide) rfl).2.1 (by decide) (by decide)
  exact ⟨rfl, by decide, rfl, by decide, by decide,
         h.1.trans (by decide), h.2.1, h.2.2.2.1 rfl⟩

/-- C3 counterexample: the delete callback checks only the `deleted` flag,
not identity.  Starting from the tombstone seen at flush time (cas 1), the
key is revived by a hash-table set (fresh cas 2) and soft-deleted again
between the flush and the callback; the callback with `affected = 1` then
physically removes this *different* tombstone, whose cas 2 differs from the
flush-time cas 1. -/
theorem C3_counterexample :
    (delCallback ⟨true, 0, 0, 0⟩ ⟨"k", 0, QueueOperation.opDel, 0⟩ 1 true
        (some ((unlocked_softDelete
          (ht_set_update ⟨"k", none, 1, 0, 0, 4, false, true, 0, true, 0⟩
            "v2" 2 5) 6).1))
        0 0 7).removed = true ∧
    ((unlocked_softDelete
        (ht_set_update ⟨"k", none, 1, 0, 0, 4, false, true, 0, true, 0⟩
          "v2" 2 5) 6).1).cas ≠
      (StoredValue.mk "k" none 1 0 0 4 false true 0 true 0).cas := by
  constructor <;> decide

/-- C3 (amended): a delete callback with `affected ≥ 0` physically removes
the entry only when it is (still) a tombstone — though not necessarily the
same tombstone as at flush time — and an entry that has since been replaced
by a live value is never removed: if unexpired it is merely stripped of its
rowId. -/
theorem C3_del_callback_tombstone_only (cfg : Config) (qi : QueuedItem)
    (value : Int) (vbPresent : Bool) (entry : Option StoredValue)
    (dirtiedStamp rnow now : Nat)
    (hv : value ≥ 0) :
    ((delCallback cfg qi value vbPresent entry dirtiedStamp rnow
        now).removed = true →
      ∃ sv, entry = some sv ∧ sv.deleted = true) ∧
    (∀ sv, entry = some sv → sv.deleted = false →
      (delCallback cfg qi value vbPresent entry dirtiedStamp rnow
          now).removed = false ∧
      (vbPresent = true → sv.isExpired rnow = false →
        delCallback cfg qi value vbPresent entry dirtiedStamp rnow now =
          ⟨false, true, [], some (clearId sv), []⟩)) := by
  constructor
  · intro hrem
    match entry with
    | none =>
      exfalso
      cases vbPresent <;>
        simp [delCallback, hv, fetchValidValue, unlocked_find] at hrem
    | some sv =>
      refine ⟨sv, rfl, ?_⟩
      by_contra hdel
      replace hdel : sv.deleted = false := by
        cases h : sv.deleted
        · rfl
        · exact absurd h hdel
      cases vbPresent <;>
      by_cases hx : sv.isExpired rnow <;>
        simp [delCallback, hv, fetchValidValue, unlocked_find, hdel,
              hx] at hrem
  · rintro sv rfl hdel
    constructor
    · cases vbPresent <;>
      by_cases hx : sv.isExpired rnow <;>
        simp [delCallback, hv, fetchValidValue, unlocked_find, hdel, hx]
    · rintro rfl hx
      simp [delCallback, hv, fetchValidValue, unlocked_find, hdel, hx]

/-- Witness for C3 at a concrete input (a replaced live entry: not removed,
rowId cleared). -/
theorem C3_witness :
    (0 : Int) ≥ 0 ∧
    (delCallback ⟨true, 0, 0, 0⟩ ⟨"k", 0, QueueOperation.opDel, 0⟩ 0 true
        (some ⟨"k", some "v", 3, 0, 0, 2, false, false, 0, false, 0⟩) 0 0
        0).removed = false ∧
    delCallback ⟨true, 0, 0, 0⟩ ⟨"k", 0, QueueOperation.opDel, 0⟩ 0 true
        (some ⟨"k", some "v", 3, 0, 0, 2, false, false, 0, false, 0⟩) 0 0 0 =
      ⟨false, true, [],
       some ⟨"k", some "v", 3, 0, 0, -1, false, false, 0, false, 0⟩, []⟩ := by
  have h := (C3_del_callback_tombstone_only ⟨true, 0, 0, 0⟩
    ⟨"k", 0, QueueOperation.opDel, 0⟩ 0 true
    (some ⟨"k", some "v", 3, 0, 0, 2, false, false, 0, false, 0⟩) 0 0 0
    (by decide)).2 ⟨"k", some "v", 3, 0, 0, 2, false, false, 0, false, 0⟩
    rfl rfl
  exact ⟨by decide, h.1, (h.2 rfl (by decide)).trans (by decide)⟩

/-- C8 counterexample: `setVBucketState` on an absent partition only creates
it (with the requested state as its initial state) — no pending-op
notification task and no state-persist task is scheduled, contradicting the
claim that every call schedules both. -/
theorem C8_counterexample :
    setVBucketState [] 0 VBucketState.active =
      ⟨[(0, VBucketState.active)], [], []⟩ := by
  decide

/-- C8 (amended): when the partition exists, `setVBucketState` sets the new
state, schedules the pending-op notification on the non-I/O dispatcher and
the state-persist task on the I/O dispatcher; when it is absent, it only
creates the partition with the new state as its initial state, scheduling
nothing.  A failed persist (`completeSetVBState`) reschedules itself with a
5-second delay; a successful one schedules nothing further. -/
theorem C8_setVBucketState_behavior :
    (∀ table vbid toSt st, vbLookup table vbid = some st →
      setVBucketState table vbid toSt =
        ⟨vbSetState table vbid toSt,
         [ScheduledTask.notifyVBStateChange vbid],
         [ScheduledTask.setVBStateTask vbid (vbStateToString toSt) 0]⟩) ∧
    (∀ table vbid toSt, vbLookup table vbid = none →
      setVBucketState table vbid toSt = ⟨table ++ [(vbid, toSt)], [], []⟩) ∧
    (∀ vbid key, completeSetVBState false vbid key =
      [ScheduledTask.setVBStateTask vbid key 5]) ∧
    (∀ vbid key, completeSetVBState true vbid key = []) := by
  refine ⟨?_, ?_, fun _ _ => rfl, fun _ _ => rfl⟩
  · intro table vbid toSt st hfound
    simp [setVBucketState, hfound]
  · intro table vbid toSt hnone
    simp [setVBucketState, hnone]

/-- Witness for C8 at a concrete input (an existing partition). -/
theorem C8_witness :
    vbLookup [(0, VBucketState.replica)] 0 = some VBucketState.replica ∧
    setVBucketState [(0, VBucketState.replica)] 0 VBucketState.active =
      ⟨[(0, VBucketState.active)], [ScheduledTask.notifyVBStateChange 0],
       [ScheduledTask.setVBStateTask 0 "active" 0]⟩ := by
  have h := C8_setVBucketState_behavior.1 [(0, VBucketState.replica)] 0
    VBucketState.active VBucketState.replica (by decide)
  exact ⟨by decide, h.trans (by decide)⟩

end EP
